import Mathlib

/-!
Shallow embedding of `src/weave/scxx/object.h` (namespace `py`): the
`py::object` handle over reference-counted CPython values, its reference
management (`grab_ref`, `lose_ref`, copy/assign/destroy, `disown`), its
native-type cast operators, its comparison protocol (`cmp`, `==`, `<`, ...),
item access `operator[]` with the `keyed_ref` lvalue proxy, and `set_item`.

The host runtime (CPython) is modelled as an explicit `Runtime` state: a heap
of reference counts and immutable-kind payloads indexed by object id, the
process-wide pending-error state, and an allocation counter.  A C `PyObject*`
is `Option Nat` (`none` = NULL).  C++ `throw 1` is `Except.error ()`; the
error information itself lives, as in the source, in the runtime error state.
Machine doubles are carried as their 64-bit patterns (`Nat`, reduced mod
`2 ^ 64`); C `long` is a 64-bit `Int`, C `int` a 32-bit `Int` with explicit
wrapping where the source converts.
-/

namespace Weave

/-- Kinds of pending runtime errors relevant to `object.h`: the Python
exception classes the source names (`PyExc_TypeError`, `PyExc_KeyError`,
`PyExc_IndexError`) plus the overflow and internal-misuse errors the C API
primitives themselves can raise. -/
inductive ErrKind where
  | typeError
  | keyError
  | indexError
  | overflowError
  | systemError
deriving DecidableEq

/-- Scalar values usable as dictionary keys in the modelled fragment.
Python dictionaries compare keys by value; the model covers integer, text and
none keys, which suffices for every property below. -/
inductive ScalarKey where
  | intKey (n : Int)
  | strKey (s : String)
  | noneKey
deriving DecidableEq

/-- Payload of one dynamic value in the host runtime's heap.  Container
payloads store the ids of their element objects.  `customCmp` models a value
whose type defines its own rich-comparison methods: each field is the raw
`PyObject_RichCompareBool`-style outcome for the corresponding operation
(negative = the method raises, `0` = false, positive = true). -/
inductive PyVal where
  | intVal (n : Int)
  | floatVal (bits : Nat)
  | complexVal (re im : Nat)
  | strVal (s : String)
  | noneVal
  | listVal (elems : List Nat)
  | dictVal (entries : List (ScalarKey × Nat))
  | customCmp (eqR neR ltR gtR leR geR : Int)
deriving DecidableEq

/-- Rich-comparison operation tokens (`Py_LT` ... `Py_GE`). -/
inductive CmpOp where
  | lt | le | eq | ne | gt | ge
deriving DecidableEq

/-- State of the host runtime: per-object reference counts (`ob_refcnt`,
a signed count as in CPython), per-object payloads, the process-wide pending
error (kind and message), and the next fresh object id.  Ids are never
reused; a cell whose count reached zero is simply dead. -/
structure Runtime where
  refcnt : Nat → Int
  vals : Nat → PyVal
  err : Option (ErrKind × String)
  nextId : Nat

/-- Record a pending error (`PyErr_SetString`-style). -/
def setErr (s : Runtime) (k : ErrKind) (msg : String) : Runtime :=
  { s with err := some (k, msg) }

/-- `PyErr_Occurred()` as a boolean: is any error pending? -/
def PyErr_Occurred (s : Runtime) : Bool :=
  s.err.isSome

/-- `PyErr_Clear()`: drop the pending error. -/
def PyErr_Clear (s : Runtime) : Runtime :=
  { s with err := none }

/-- `PyErr_ExceptionMatches(exc)`: does the pending error match the given
exception class?  (`KeyError` and `IndexError` are unrelated classes, so
matching is plain kind equality in the modelled fragment.) -/
def PyErr_ExceptionMatches (s : Runtime) (k : ErrKind) : Bool :=
  match s.err with
  | some (k0, _) => k0 = k
  | none => false

/-- `Py_XINCREF(p)`: increment the reference count unless `p` is NULL. -/
def xincref (s : Runtime) (p : Option Nat) : Runtime :=
  match p with
  | none => s
  | some i => { s with refcnt := fun j => if j = i then s.refcnt j + 1 else s.refcnt j }

/-- `Py_XDECREF(p)`: decrement the reference count unless `p` is NULL.
Deallocation of the heap cell at count zero is not modelled: payload kinds
are immutable apart from container contents, and ids are never reused, so a
dead cell is indistinguishable from a deallocated one for every property
below. -/
def xdecref (s : Runtime) (p : Option Nat) : Runtime :=
  match p with
  | none => s
  | some i => { s with refcnt := fun j => if j = i then s.refcnt j - 1 else s.refcnt j }

/-- Allocate a fresh dynamic value with reference count 1, returning its id.
The C allocators can only fail on out-of-memory, which the spec treats as
fatal and out of scope; the model always succeeds. -/
def alloc (s : Runtime) (v : PyVal) : Runtime × Nat :=
  (⟨fun j => if j = s.nextId then 1 else s.refcnt j,
    fun j => if j = s.nextId then v else s.vals j,
    s.err, s.nextId + 1⟩, s.nextId)

/-- Replace the payload stored at id `i` (container mutation). -/
def setVal (s : Runtime) (i : Nat) (v : PyVal) : Runtime :=
  { s with vals := fun j => if j = i then v else s.vals j }

/-- Wrap of a signed 64-bit C `long`. -/
def toInt64 (n : Int) : Int :=
  (n + 2 ^ 63) % 2 ^ 64 - 2 ^ 63

/-- Wrap of a signed 32-bit C `int`, applied where the source converts a
`long` to an `int`. -/
def toInt32 (n : Int) : Int :=
  (n + 2 ^ 31) % 2 ^ 32 - 2 ^ 31

/-- Does `n` fit in a C `long` (64-bit)? -/
def longRange (n : Int) : Prop :=
  -(2 ^ 63) ≤ n ∧ n < 2 ^ 63

instance (n : Int) : Decidable (longRange n) := by
  unfold longRange; infer_instance

/-- Does `n` fit in a C `int` (32-bit)? -/
def int32Range (n : Int) : Prop :=
  -(2 ^ 31) ≤ n ∧ n < 2 ^ 31

instance (n : Int) : Decidable (int32Range n) := by
  unfold int32Range; infer_instance

/-- Bit pattern of the C double `-1.0`, the value the CPython conversion
primitives return alongside a raised error. -/
def negOneBits : Nat := 0xBFF0000000000000

/-- Stand-in for the IEEE-754 double image of an integer, used where CPython
converts an `int` object to a C double.  The bit-level rounding of that
conversion is not modelled (floating-point); no verified property depends on
the value, only on the conversion succeeding. -/
def intAsDoubleBits (n : Int) : Nat :=
  (n + 2 ^ 63).toNat % 2 ^ 64

/-- `PyLong_AsLong(p)`: the integer value if `p` is an int object fitting a
C `long`; `OverflowError` if it is an int object out of `long` range;
`TypeError` (and `-1`) if it is any other kind; `SystemError` on NULL. -/
def PyLong_AsLong (s : Runtime) (p : Option Nat) : Runtime × Int :=
  match p with
  | none => (setErr s .systemError "bad argument to internal function", -1)
  | some i =>
    match s.vals i with
    | .intVal n =>
      if longRange n then (s, n)
      else (setErr s .overflowError "Python int too large to convert to C long", -1)
    | _ => (setErr s .typeError "an integer is required", -1)

/-- `PyFloat_AsDouble(p)`: the stored bit pattern for a float object, the
double image for an int object, `TypeError` (returning `-1.0`) for any other
kind, `SystemError` on NULL. -/
def PyFloat_AsDouble (s : Runtime) (p : Option Nat) : Runtime × Nat :=
  match p with
  | none => (setErr s .systemError "bad argument to internal function", negOneBits)
  | some i =>
    match s.vals i with
    | .floatVal b => (s, b)
    | .intVal n => (s, intAsDoubleBits n)
    | _ => (setErr s .typeError "a float is required", negOneBits)

/-- `PyComplex_RealAsDouble(p)`: real component of a complex object, or the
double value of a float/int object; `TypeError` otherwise. -/
def PyComplex_RealAsDouble (s : Runtime) (p : Option Nat) : Runtime × Nat :=
  match p with
  | none => (setErr s .systemError "bad argument to internal function", negOneBits)
  | some i =>
    match s.vals i with
    | .complexVal re _ => (s, re)
    | .floatVal b => (s, b)
    | .intVal n => (s, intAsDoubleBits n)
    | _ => (setErr s .typeError "a complex number is required", negOneBits)

/-- `PyComplex_ImagAsDouble(p)`: imaginary component of a complex object,
`+0.0` (bit pattern 0) for a float/int object; `TypeError` otherwise. -/
def PyComplex_ImagAsDouble (s : Runtime) (p : Option Nat) : Runtime × Nat :=
  match p with
  | none => (setErr s .systemError "bad argument to internal function", negOneBits)
  | some i =>
    match s.vals i with
    | .complexVal _ im => (s, im)
    | .floatVal _ => (s, 0)
    | .intVal _ => (s, 0)
    | _ => (setErr s .typeError "a complex number is required", negOneBits)

/-- `PyUnicode_Check(p)`: is `p` a text object? -/
def PyUnicode_Check (s : Runtime) (p : Option Nat) : Bool :=
  match p with
  | none => false
  | some i =>
    match s.vals i with
    | .strVal _ => true
    | _ => false

/-- `PyUnicode_AsUTF8(p)`: contents of a text object (only reached in the
source after `PyUnicode_Check` has succeeded). -/
def PyUnicode_AsUTF8 (s : Runtime) (p : Option Nat) : String :=
  match p with
  | none => ""
  | some i =>
    match s.vals i with
    | .strVal t => t
    | _ => ""

/-- Normalize the outcome of a user comparison method the way
`PyObject_RichCompareBool` does: a raised error stays an error (`-1`), any
other outcome is collapsed through truthiness to `0` or `1`. -/
def normCmpOutcome (t : Int) : Int :=
  if t < 0 then -1 else if t = 0 then 0 else 1

/-- Outcome of the given custom-comparison table for one operation token. -/
def customTable (eqR neR ltR gtR leR geR : Int) : CmpOp → Int
  | .eq => normCmpOutcome eqR
  | .ne => normCmpOutcome neR
  | .lt => normCmpOutcome ltR
  | .gt => normCmpOutcome gtR
  | .le => normCmpOutcome leR
  | .ge => normCmpOutcome geR

/-- Evaluate an order predicate over a linearly ordered pair as `0` or `1`. -/
def ordAnswer (op : CmpOp) (lt : Bool) (eq : Bool) : Int :=
  match op with
  | .lt => if lt then 1 else 0
  | .le => if lt || eq then 1 else 0
  | .eq => if eq then 1 else 0
  | .ne => if eq then 0 else 1
  | .gt => if !lt && !eq then 1 else 0
  | .ge => if !lt then 1 else 0

/-- Value-level rich comparison between two payloads: `1`/`0` for a decided
answer, `-1` when the runtime would raise (unorderable kinds under an
ordering token).  A value with custom comparison methods answers from its
table; when only the right operand is custom, its reflected method is used,
as in Python.  Mixed ordinary kinds compare unequal and are unorderable. -/
def richCmpVal (v w : PyVal) (op : CmpOp) : Int :=
  match v, w with
  | .customCmp e n l g le ge, _ => customTable e n l g le ge op
  | _, .customCmp e n l g le ge =>
    customTable e n l g le ge
      (match op with
       | .lt => .gt | .gt => .lt | .le => .ge | .ge => .le | .eq => .eq | .ne => .ne)
  | .intVal m, .intVal n => ordAnswer op (decide (m < n)) (decide (m = n))
  | .strVal a, .strVal b => ordAnswer op (decide (a < b)) (decide (a = b))
  | .noneVal, .noneVal =>
    match op with
    | .eq => 1
    | .ne => 0
    | _ => -1
  | _, _ =>
    match op with
    | .eq => 0
    | .ne => 1
    | _ => -1

/-- `PyObject_RichCompareBool(a, b, op)`: identity shortcut for `Py_EQ` /
`Py_NE` on the same pointer, then value comparison; returns `-1` and sets the
pending error when the comparison raises; `SystemError` on a NULL operand. -/
def PyObject_RichCompareBool (s : Runtime) (a b : Option Nat) (op : CmpOp) :
    Runtime × Int :=
  match a, b with
  | some i, some j =>
    if i = j ∧ (op = .eq ∨ op = .ne) then
      (s, if op = .eq then 1 else 0)
    else
      let r := richCmpVal (s.vals i) (s.vals j) op
      if r = -1 then (setErr s .typeError "comparison not supported between instances", -1)
      else (s, r)
  | _, _ => (setErr s .systemError "bad argument to internal function", -1)

/-- Dictionary-key image of a payload: `some` for the hashable scalar kinds
covered by the model, `none` for the unhashable container kinds (on which
`TypeError` is raised below). -/
def toKey : PyVal → Option ScalarKey
  | .intVal n => some (.intKey n)
  | .strVal t => some (.strKey t)
  | .noneVal => some .noneKey
  | _ => none

/-- First value bound to `k`, searching an association list left to right. -/
def lookupAssoc : List (ScalarKey × Nat) → ScalarKey → Option Nat
  | [], _ => none
  | (k0, v) :: rest, k => if k0 = k then some v else lookupAssoc rest k

/-- Rebind `k` in place, as a Python dict update preserves entry order. -/
def setAssoc : List (ScalarKey × Nat) → ScalarKey → Nat → List (ScalarKey × Nat)
  | [], k, v => [(k, v)]
  | (k0, v0) :: rest, k, v =>
    if k0 = k then (k, v) :: rest else (k0, v0) :: setAssoc rest k v

/-- Effective index of a sequence subscript: Python resolves a negative
index relative to the length. -/
def seqIndex (len : Nat) (i : Int) : Int :=
  if i < 0 then i + len else i

/-- `PyObject_GetItem(c, k)`: fetch the item of container `c` at key `k`,
returning a NEW reference (the fetched object's count is incremented) or
NULL with the pending error set.  A list raises `IndexError` out of range and
`TypeError` on a non-integer subscript; a dict raises `KeyError` for an
absent key and `TypeError` for an unhashable one; a non-container kind
raises `TypeError`. -/
def PyObject_GetItem (s : Runtime) (c k : Option Nat) : Runtime × Option Nat :=
  match c, k with
  | some ci, some ki =>
    match s.vals ci with
    | .listVal elems =>
      match s.vals ki with
      | .intVal i =>
        let j := seqIndex elems.length i
        if 0 ≤ j ∧ j.toNat < elems.length then
          let v := elems.getD j.toNat 0
          (xincref s (some v), some v)
        else (setErr s .indexError "list index out of range", none)
      | _ => (setErr s .typeError "list indices must be integers", none)
    | .dictVal entries =>
      match toKey (s.vals ki) with
      | some key =>
        match lookupAssoc entries key with
        | some v => (xincref s (some v), some v)
        | none => (setErr s .keyError "key not found", none)
      | none => (setErr s .typeError "unhashable type", none)
    | _ => (setErr s .typeError "object is not subscriptable", none)
  | _, _ => (setErr s .systemError "null argument to internal routine", none)

/-- `PyObject_SetItem(c, k, v)`: store `v` at key `k` of container `c`,
returning `0` on success and `-1` with the pending error set on failure.
The container acquires its own reference to `v` and releases the reference
to any value it replaces. -/
def PyObject_SetItem (s : Runtime) (c k v : Option Nat) : Runtime × Int :=
  match c, k, v with
  | some ci, some ki, some vi =>
    match s.vals ci with
    | .listVal elems =>
      match s.vals ki with
      | .intVal i =>
        let j := seqIndex elems.length i
        if 0 ≤ j ∧ j.toNat < elems.length then
          let old := elems.getD j.toNat 0
          let s1 := xincref s (some vi)
          let s2 := setVal s1 ci (.listVal (elems.set j.toNat vi))
          (xdecref s2 (some old), 0)
        else (setErr s .indexError "list assignment index out of range", -1)
      | _ => (setErr s .typeError "list indices must be integers", -1)
    | .dictVal entries =>
      match toKey (s.vals ki) with
      | some key =>
        match lookupAssoc entries key with
        | some old =>
          let s1 := xincref s (some vi)
          let s2 := setVal s1 ci (.dictVal (setAssoc entries key vi))
          (xdecref s2 (some old), 0)
        | none =>
          let s1 := xincref s (some vi)
          (setVal s1 ci (.dictVal (entries ++ [(key, vi)])), 0)
      | none => (setErr s .typeError "unhashable type", -1)
    | _ => (setErr s .typeError "object does not support item assignment", -1)
  | _, _, _ => (setErr s .systemError "null argument to internal routine", -1)

/-- The `py::object` handle: `_obj` is the underlying `PyObject*`; `_own` is
`_obj` when the handle owns a counted reference to it and NULL otherwise
(object.h lines 38, 64). -/
structure object where
  _obj : Option Nat
  _own : Option Nat
deriving DecidableEq

/-- Heap state after the first half of `object::grab_ref` (line 47): the
incref of the new referent, performed before the old owner is released. -/
def object.grab_ref_mid (s : Runtime) (newObj : Option Nat) : Runtime :=
  xincref s newObj

/-- `object::grab_ref(newObj)` (lines 45-50): incref the new referent, decref
the previously owned one, and make the handle own the new referent. -/
def object.grab_ref (s : Runtime) (h : object) (newObj : Option Nat) :
    Runtime × object :=
  (xdecref (object.grab_ref_mid s newObj) h._own, ⟨newObj, newObj⟩)

/-- `object::lose_ref(o)` (lines 57-58): decrement the raw reference count
without destroying the object, pass the pointer through; no-op on NULL. -/
def lose_ref (s : Runtime) (o : Option Nat) : Runtime × Option Nat :=
  match o with
  | none => (s, none)
  | some i => ({ s with refcnt := fun j => if j = i then s.refcnt j - 1 else s.refcnt j }, some i)

/-- `object(const std::nullptr_t&)` (line 72): a handle wrapping no value. -/
def object.fromNullptr : object :=
  ⟨none, none⟩

/-- `object(const object& other)` (lines 73-74): copy construction; the new
handle starts null and grabs the referent of `other` (the argument passes
through `operator PyObject*`, which yields `_obj`). -/
def object.copyCtor (s : Runtime) (other : object) : Runtime × object :=
  object.grab_ref s object.fromNullptr other._obj

/-- `object(PyObject* obj)` (lines 75-76): retaining construction from a raw
borrowed reference; the handle grabs (increfs) it. -/
def object.fromRaw (s : Runtime) (p : Option Nat) : Runtime × object :=
  object.grab_ref s object.fromNullptr p

/-- The class declares a copy constructor and a destructor but no move
constructor, so no implicit move constructor exists and a C++ move
expression `object(std::move(h))` resolves to `object(const object&)`; this
definition records that resolution. -/
def object.moveCtor (s : Runtime) (other : object) : Runtime × object :=
  object.copyCtor s other

/-- `object(bool val)` (lines 81-83): `PyLong_FromLong((int)val)`; a C++
bool converts to `0` or `1`. -/
def object.fromBool (s : Runtime) (val : Bool) : Runtime × object :=
  let (s1, i) := alloc s (.intVal (if val then 1 else 0))
  (s1, ⟨some i, some i⟩)

/-- `object(int val)` (lines 84-86): `PyLong_FromLong((int)val)` stores the
integer exactly; the argument is wrapped to the C `int` domain it inhabits. -/
def object.fromInt (s : Runtime) (val : Int) : Runtime × object :=
  let (s1, i) := alloc s (.intVal (toInt32 val))
  (s1, ⟨some i, some i⟩)

/-- `object(long val)` (lines 90-92): `PyLong_FromLong(val)`. -/
def object.fromLong (s : Runtime) (val : Int) : Runtime × object :=
  let (s1, i) := alloc s (.intVal (toInt64 val))
  (s1, ⟨some i, some i⟩)

/-- `object(unsigned long val)` (lines 93-95): `PyLong_FromUnsignedLong`
stores the unsigned 64-bit value without sign loss. -/
def object.fromULong (s : Runtime) (val : Nat) : Runtime × object :=
  let (s1, i) := alloc s (.intVal (val % 2 ^ 64))
  (s1, ⟨some i, some i⟩)

/-- `object(double val)` (lines 96-98): `PyFloat_FromDouble` stores the
64-bit pattern verbatim. -/
def object.fromDouble (s : Runtime) (bits : Nat) : Runtime × object :=
  let (s1, i) := alloc s (.floatVal (bits % 2 ^ 64))
  (s1, ⟨some i, some i⟩)

/-- `object(const std::complex<double>&)` (lines 99-101):
`PyComplex_FromDoubles(val.real(), val.imag())`. -/
def object.fromComplex (s : Runtime) (re im : Nat) : Runtime × object :=
  let (s1, i) := alloc s (.complexVal (re % 2 ^ 64) (im % 2 ^ 64))
  (s1, ⟨some i, some i⟩)

/-- `object(const char*)` / `object(const std::string&)` (lines 106-111):
`PyUnicode_FromString` stores the text.  The byte-level `c_str`/UTF-8
boundary is below the model: native strings are carried verbatim. -/
def object.fromString (s : Runtime) (val : String) : Runtime × object :=
  let (s1, i) := alloc s (.strVal val)
  (s1, ⟨some i, some i⟩)

/-- `object::~object()` (lines 116-118): `Py_XDECREF(_own)` — release the
owned referent if any, no-op for a borrowing or null handle. -/
def object.destruct (s : Runtime) (h : object) : Runtime :=
  xdecref s h._own

/-- `object::operator=(const object& other)` (lines 178-181): grab the
referent of `other` (releasing the old owned referent after the incref). -/
def object.assign (s : Runtime) (h other : object) : Runtime × object :=
  object.grab_ref s h other._obj

/-- `object::operator PyObject*()` (lines 123-125). -/
def object.rawPtr (h : object) : Option Nat :=
  h._obj

/-- Whether `py::fail` is a declaration-only symbol of this translation unit.
Modelled from the spec: `fail(PyObject* exc, const char* msg)` is declared at
object.h line 21 but defined elsewhere in the repository; per the spec it is
the failure-raising entry point that records the error kind and message in
the same process-wide error state the runtime uses and then signals a
synchronous failure that unwinds ("signal and unwind"). -/
def fail (s : Runtime) (k : ErrKind) (msg : String) : Runtime × Except Unit Unit :=
  (setErr s k msg, .error ())

/-- `object::operator int()` (lines 127-135): `PyLong_AsLong`, then if an
error is pending clear it and fail with a `TypeError` conversion error; the
successful `long` is stored into a C `int`, wrapping. -/
def object.castInt (s : Runtime) (h : object) : Runtime × Except Unit Int :=
  let (s1, v) := PyLong_AsLong s h._obj
  if PyErr_Occurred s1 then
    let (s2, _) := fail (PyErr_Clear s1) .typeError "cannot convert value to integer"
    (s2, .error ())
  else (s1, .ok (toInt32 v))

/-- `object::operator float()` (lines 136-144): `PyFloat_AsDouble` with the
same clear-then-fail error discipline, the result narrowed to a C `float`.
The narrowing rounding is floating-point behavior not modelled bit-level; the
model carries the double pattern through, and no verified property depends on
the cast's numeric value, only on its error behavior. -/
def object.castFloat (s : Runtime) (h : object) : Runtime × Except Unit Nat :=
  let (s1, v) := PyFloat_AsDouble s h._obj
  if PyErr_Occurred s1 then
    let (s2, _) := fail (PyErr_Clear s1) .typeError "cannot convert value to float"
    (s2, .error ())
  else (s1, .ok v)

/-- `object::operator double()` (lines 145-153): `PyFloat_AsDouble` with the
clear-then-fail error discipline. -/
def object.castDouble (s : Runtime) (h : object) : Runtime × Except Unit Nat :=
  let (s1, v) := PyFloat_AsDouble s h._obj
  if PyErr_Occurred s1 then
    let (s2, _) := fail (PyErr_Clear s1) .typeError "cannot convert value to double"
    (s2, .error ())
  else (s1, .ok v)

/-- `object::operator std::complex<double>()` (lines 154-163): real then
imaginary component, a single pending-error check, clear-then-fail. -/
def object.castComplex (s : Runtime) (h : object) : Runtime × Except Unit (Nat × Nat) :=
  let (s1, re) := PyComplex_RealAsDouble s h._obj
  let (s2, im) := PyComplex_ImagAsDouble s1 h._obj
  if PyErr_Occurred s2 then
    let (s3, _) := fail (PyErr_Clear s2) .typeError "cannot convert value to complex"
    (s3, .error ())
  else (s2, .ok (re, im))

/-- `object::operator std::string()` (lines 164-168): fail fast with a
`TypeError` unless the value is already text, else return its contents. -/
def object.castStdString (s : Runtime) (h : object) : Runtime × Except Unit String :=
  if !PyUnicode_Check s h._obj then
    let (s1, _) := fail s .typeError "cannot convert value to std::string"
    (s1, .error ())
  else (s, .ok (PyUnicode_AsUTF8 s h._obj))

/-- `object::operator const char*()` (lines 169-173): fail fast with a
`TypeError` unless the value is already text. -/
def object.castCharPtr (s : Runtime) (h : object) : Runtime × Except Unit String :=
  if !PyUnicode_Check s h._obj then
    let (s1, _) := fail s .typeError "cannot convert value to const char*"
    (s1, .error ())
  else (s, .ok (PyUnicode_AsUTF8 s h._obj))

/-- `object::cmp(T other)` (lines 286-290) at `T = object`: build a handle
`o` for the comparand, subtract the `Py_LT` rich-comparison outcome from the
`Py_GT` outcome, and let `o` go out of scope. -/
def object.cmp (s : Runtime) (h other : object) : Runtime × Int :=
  let (s1, o) := object.copyCtor s other
  let (s2, g) := PyObject_RichCompareBool s1 h._obj o._obj .gt
  let (s3, l) := PyObject_RichCompareBool s2 h._obj o._obj .lt
  (object.destruct s3 o, g - l)

/-- `object::operator==` (line 292): the raw `PyObject_RichCompareBool`
outcome converted from C `int` to `bool` (any nonzero value, including the
error outcome `-1`, converts to `true`); no error check is performed. -/
def object.opEq (s : Runtime) (h other : object) : Runtime × Bool :=
  let (s1, r) := PyObject_RichCompareBool s h._obj other._obj .eq
  (s1, decide (r ≠ 0))

/-- `object::operator!=` (line 293). -/
def object.opNe (s : Runtime) (h other : object) : Runtime × Bool :=
  let (s1, r) := PyObject_RichCompareBool s h._obj other._obj .ne
  (s1, decide (r ≠ 0))

/-- `object::operator<` (line 294). -/
def object.opLt (s : Runtime) (h other : object) : Runtime × Bool :=
  let (s1, r) := PyObject_RichCompareBool s h._obj other._obj .lt
  (s1, decide (r ≠ 0))

/-- `object::operator>` (line 295). -/
def object.opGt (s : Runtime) (h other : object) : Runtime × Bool :=
  let (s1, r) := PyObject_RichCompareBool s h._obj other._obj .gt
  (s1, decide (r ≠ 0))

/-- `object::operator<=` (line 296). -/
def object.opLe (s : Runtime) (h other : object) : Runtime × Bool :=
  let (s1, r) := PyObject_RichCompareBool s h._obj other._obj .le
  (s1, decide (r ≠ 0))

/-- `object::operator>=` (line 297). -/
def object.opGe (s : Runtime) (h other : object) : Runtime × Bool :=
  let (s1, r) := PyObject_RichCompareBool s h._obj other._obj .ge
  (s1, decide (r ≠ 0))

/-- `object::is_null()` (lines 409-411): whether the handle wraps no value
at all (`_obj == NULL`), as opposed to wrapping any dynamic value. -/
def object.is_null (h : object) : Bool :=
  h._obj.isNone

/-- `object::disown()` (lines 514-517): null the ownership marker and hand
the raw reference to the caller; no reference count is touched. -/
def object.disown (h : object) : object × Option Nat :=
  (⟨h._obj, none⟩, h._obj)

/-- `object::refcount()` (lines 519-521): diagnostic read of `ob_refcnt`. -/
def object.refcount (s : Runtime) (h : object) : Int :=
  match h._obj with
  | some i => s.refcnt i
  | none => 0

/-- `object::set_item(key, val)` (lines 489-493): `PyObject_SetItem` on the
raw pointers, throwing on `-1`. -/
def object.set_item (s : Runtime) (h key val : object) : Runtime × Except Unit Unit :=
  let (s1, r) := PyObject_SetItem s h._obj key._obj val._obj
  if r = -1 then (s1, .error ()) else (s1, .ok ())

/-- `object::keyed_ref` (lines 537-556): the lvalue proxy returned by
`operator[]`.  `base` is the inherited `object` subobject wrapping the
fetched value; `_key` is the handle's own copy of the key.  In the source
`_parent` is a C++ reference (`object&`) to the parent handle; the model
stores the parent handle's value, which is adequate because no modelled
operation mutates the parent handle between the proxy's creation and use
(mutation of the parent's heap object lives in `Runtime`). -/
structure object.keyed_ref where
  base : object
  _parent : object
  _key : object

/-- `keyed_ref(object obj, object& parent, const object& key)` (lines
542-543) together with its by-value argument: the caller's result handle is
copied into the `obj` parameter, the base subobject is copy-constructed from
it, `_key` is copy-constructed from the key, and the `obj` parameter is
destroyed when the constructor returns. -/
def mkKeyedRef (s : Runtime) (rslt parent k : object) : Runtime × object.keyed_ref :=
  let (s1, objParam) := object.copyCtor s rslt
  let (s2, b) := object.copyCtor s1 objParam
  let (s3, keyCopy) := object.copyCtor s2 k
  (object.destruct s3 objParam, ⟨b, parent, keyCopy⟩)

/-- Normal exit of `object::operator[]` (line 575): construct the returned
`keyed_ref` from the fetched handle, the parent and the key handle, then
destroy the local `rslt` and `k` handles. -/
def keyedReturn (s : Runtime) (rslt parent k : object) :
    Runtime × Except Unit object.keyed_ref :=
  let (s1, kr) := mkKeyedRef s rslt parent k
  (object.destruct (object.destruct s1 rslt) k, .ok kr)

/-- `object::operator[](T key)` (lines 558-576) at `T = object`: build the
key handle `k`, fetch with `PyObject_GetItem` (stealing the fetched new
reference through the `object(PyObject*)` constructor followed by
`lose_ref`), and on a null fetch result inspect the pending error: a
`KeyError` is cleared and swallowed, an `IndexError` is thrown (the locals
`rslt` and `k` are destroyed during unwind), and any other pending error
falls through the `if`/`else if` chain, so the function returns normally
with the error still pending. -/
def object.getitem (s : Runtime) (h key : object) :
    Runtime × Except Unit object.keyed_ref :=
  let (s1, k) := object.copyCtor s key
  let (s2, p) := PyObject_GetItem s1 h._obj k._obj
  let (s3, rslt) := object.fromRaw s2 p
  let (s4, _) := lose_ref s3 rslt.rawPtr
  if rslt.rawPtr.isNone then
    if PyErr_ExceptionMatches s4 .keyError then
      keyedReturn (PyErr_Clear s4) rslt h k
    else if PyErr_ExceptionMatches s4 .indexError then
      (object.destruct (object.destruct s4 rslt) k, .error ())
    else keyedReturn s4 rslt h k
  else keyedReturn s4 rslt h k

/-- `keyed_ref::operator=(const object& other)` (lines 546-550): first
update this reference's own referent with `grab_ref(other)`, then write back
through `_parent.set_item(_key, other)`; a failing write-back propagates
after the local update has already happened. -/
def object.keyed_ref.assign (s : Runtime) (kr : object.keyed_ref) (other : object) :
    Runtime × object.keyed_ref × Except Unit Unit :=
  let (s1, b) := object.grab_ref s kr.base other._obj
  let (s2, res) := object.set_item s1 kr._parent kr._key other
  (s2, ⟨b, kr._parent, kr._key⟩, res)

/-- Observation helper: did a fetch through `operator[]` return normally? -/
def fetchOk (e : Except Unit object.keyed_ref) : Bool :=
  match e with
  | .ok _ => true
  | .error _ => false

/-- Observation helper: the referent wrapped by a normally returned
`keyed_ref` (`none` when the fetch threw). -/
def fetchedReferent (e : Except Unit object.keyed_ref) : Option (Option Nat) :=
  match e with
  | .ok kr => some kr.base._obj
  | .error _ => none

/-- Can `PyLong_AsLong` produce a value from this payload kind? -/
def intCoercible (v : PyVal) : Bool :=
  match v with
  | .intVal n => decide (longRange n)
  | _ => false

/-- Can `PyFloat_AsDouble` produce a value from this payload kind? -/
def floatCoercible (v : PyVal) : Bool :=
  match v with
  | .floatVal _ => true
  | .intVal _ => true
  | _ => false

/-- Can the `PyComplex_*AsDouble` pair produce values from this kind? -/
def complexCoercible (v : PyVal) : Bool :=
  match v with
  | .complexVal _ _ => true
  | .floatVal _ => true
  | .intVal _ => true
  | _ => false

/-- Is this payload of text kind (`PyUnicode_Check`)? -/
def textKind (v : PyVal) : Bool :=
  match v with
  | .strVal _ => true
  | _ => false

/-- Payloads of the concrete test heap used by witnesses: an integer, a
text value, another integer usable as a key, a one-entry dictionary, a
one-element list, a value with custom (inconsistent) comparison methods,
and the runtime's none singleton. -/
def testVals : Nat → PyVal := fun i =>
  if i = 0 then .intVal 5
  else if i = 1 then .strVal "a"
  else if i = 2 then .intVal 0
  else if i = 3 then .dictVal [(.intKey 1, 2)]
  else if i = 4 then .listVal [2]
  else if i = 5 then .customCmp 0 1 (-1) 1 0 0
  else .noneVal

/-- Concrete test runtime: seven live objects, each at reference count 1, no
pending error. -/
def sBase : Runtime :=
  ⟨fun i => if i ≤ 6 then 1 else 0, testVals, none, 7⟩

/-- Owning handle on the integer object 0. -/
def hOwn0 : object := ⟨some 0, some 0⟩

/-- Borrowing handle on the integer object 0. -/
def hBorrow0 : object := ⟨some 0, none⟩

/-- Owning handle on the text object 1. -/
def hStr1 : object := ⟨some 1, some 1⟩

/-- Owning handle on the integer object 2 (used as a key). -/
def hKey2 : object := ⟨some 2, some 2⟩

/-- Owning handle on the dictionary object 3. -/
def hDict3 : object := ⟨some 3, some 3⟩

/-- Owning handle on the list object 4. -/
def hList4 : object := ⟨some 4, some 4⟩

/-- Owning handle on the custom-comparison object 5. -/
def hCustom5 : object := ⟨some 5, some 5⟩

/-- Owning handle on the none object 6. -/
def hNone6 : object := ⟨some 6, some 6⟩

theorem xincref_vals (s : Runtime) (p : Option Nat) : (xincref s p).vals = s.vals := by
  cases p <;> rfl

theorem xincref_err (s : Runtime) (p : Option Nat) : (xincref s p).err = s.err := by
  cases p <;> rfl

theorem xdecref_vals (s : Runtime) (p : Option Nat) : (xdecref s p).vals = s.vals := by
  cases p <;> rfl

theorem xdecref_err (s : Runtime) (p : Option Nat) : (xdecref s p).err = s.err := by
  cases p <;> rfl

theorem xincref_refcnt_other (s : Runtime) (i j : Nat) (hne : j ≠ i) :
    (xincref s (some i)).refcnt j = s.refcnt j := by
  simp [xincref, hne]

theorem xdecref_refcnt_other (s : Runtime) (i j : Nat) (hne : j ≠ i) :
    (xdecref s (some i)).refcnt j = s.refcnt j := by
  simp [xdecref, hne]

theorem toInt32_eq_self (n : Int) (h : int32Range n) : toInt32 n = n := by
  rcases h with ⟨h1, h2⟩
  unfold toInt32
  omega

/-- C1, counterexample: with the referent of the owning handle `hOwn0` at
reference count 1, copy-constructing a second handle and destroying both
handles leaves the count at 0, not at its pre-copy value 1 — the claim that
destroying both copies leaves the count unchanged from before the copy fails
on the code. -/
theorem claim_C1_counterexample :
    (object.destruct
        (object.destruct (object.copyCtor sBase hOwn0).1 (object.copyCtor sBase hOwn0).2)
        hOwn0).refcnt 0 = 0 ∧
    sBase.refcnt 0 = 1 := by
  constructor <;> decide

/-- C1, amended: destroying a handle releases its counted reference exactly
once if it is owning (the referent's count drops by exactly 1, no other
count changes) and zero times if it is borrowing (the whole runtime state is
untouched); for an owning handle, copy-constructing a second handle and
destroying the copy restores every reference count to its pre-copy value,
and destroying the original as well leaves the referent exactly one below
the pre-copy value — that one being the original's own single release. -/
theorem claim_C1_amended (s : Runtime) (h : object) (r : Nat) :
    (h._own = some r →
      (object.destruct s h).refcnt r = s.refcnt r - 1 ∧
      ∀ j, j ≠ r → (object.destruct s h).refcnt j = s.refcnt j) ∧
    (h._own = none → object.destruct s h = s) ∧
    (h._obj = some r → h._own = some r →
      (∀ j, (object.destruct (object.copyCtor s h).1 (object.copyCtor s h).2).refcnt j
          = s.refcnt j) ∧
      (object.destruct
          (object.destruct (object.copyCtor s h).1 (object.copyCtor s h).2) h).refcnt r
          = s.refcnt r - 1) := by
  refine ⟨fun hown => ?_, fun hown => ?_, fun hobj hown => ?_⟩
  · constructor
    · simp [object.destruct, hown, xdecref]
    · intro j hj
      simp [object.destruct, hown, xdecref, hj]
  · simp [object.destruct, hown, xdecref]
  · have hcopy : object.copyCtor s h = (xincref s (some r), ⟨some r, some r⟩) := by
      simp [object.copyCtor, object.grab_ref, object.grab_ref_mid, object.fromNullptr,
        hobj, xdecref]
    constructor
    · intro j
      rw [hcopy]
      by_cases hj : j = r
      · subst hj
        simp [object.destruct, xdecref, xincref]
      · simp [object.destruct, xdecref, xincref, hj]
    · rw [hcopy]
      simp [object.destruct, hown, xdecref, xincref]

/-- C1, witness for the amended theorem at the concrete runtime `sBase`:
destroying the owning handle `hOwn0` drops its referent from 1 to 0 and
leaves object 1 untouched, destroying the borrowing handle `hBorrow0`
changes nothing, and the copy/destroy accounting holds on object 0. -/
theorem claim_C1_witness :
    (object.destruct sBase hOwn0).refcnt 0 = sBase.refcnt 0 - 1 ∧
    (object.destruct sBase hOwn0).refcnt 1 = sBase.refcnt 1 ∧
    object.destruct sBase hBorrow0 = sBase ∧
    (object.destruct (object.copyCtor sBase hOwn0).1 (object.copyCtor sBase hOwn0).2).refcnt 0
        = sBase.refcnt 0 := by
  obtain ⟨d1, d2, d3⟩ := claim_C1_amended sBase hOwn0 0
  obtain ⟨_, b2, _⟩ := claim_C1_amended sBase hBorrow0 0
  refine ⟨(d1 rfl).1, (d1 rfl).2 1 (by decide), b2 rfl, (d3 rfl rfl).1 0⟩

/-- C2: copy-construction and copy-assignment acquire the new referent's
counted reference before releasing the old owned one — both are
`grab_ref`, whose final state is the decref applied after the incref
(`grab_ref_mid`) — so self-assignment of an owning handle passes through an
intermediate count one above the original (in particular never zero) and
ends with the count and the handle unchanged. -/
theorem claim_C2 (s : Runtime) (h : object) (r : Nat)
    (hobj : h._obj = some r) (hown : h._own = some r) (hpos : 1 ≤ s.refcnt r) :
    object.assign s h h = (xdecref (object.grab_ref_mid s h._obj) h._own, ⟨h._obj, h._obj⟩) ∧
    object.copyCtor s h = (xdecref (object.grab_ref_mid s h._obj) none, ⟨h._obj, h._obj⟩) ∧
    (object.grab_ref_mid s h._obj).refcnt r = s.refcnt r + 1 ∧
    (object.grab_ref_mid s h._obj).refcnt r ≠ 0 ∧
    (object.assign s h h).1.refcnt r = s.refcnt r ∧
    (object.assign s h h).2 = h := by
  refine ⟨rfl, rfl, ?_, ?_, ?_, ?_⟩
  · simp [object.grab_ref_mid, hobj, xincref]
  · simp [object.grab_ref_mid, hobj, xincref]
    omega
  · simp [object.assign, object.grab_ref, object.grab_ref_mid, hobj, hown, xincref, xdecref]
  · cases h
    simp only at hobj hown
    simp [object.assign, object.grab_ref, hobj, hown]

/-- C2, witness: self-assignment of the owning handle `hOwn0` in `sBase`
(count 1) reaches intermediate count 2 and ends at count 1 with the handle
unchanged. -/
theorem claim_C2_witness :
    hOwn0._obj = some 0 ∧ hOwn0._own = some 0 ∧ 1 ≤ sBase.refcnt 0 ∧
    (object.grab_ref_mid sBase hOwn0._obj).refcnt 0 = sBase.refcnt 0 + 1 ∧
    (object.grab_ref_mid sBase hOwn0._obj).refcnt 0 ≠ 0 ∧
    (object.assign sBase hOwn0 hOwn0).1.refcnt 0 = sBase.refcnt 0 ∧
    (object.assign sBase hOwn0 hOwn0).2 = hOwn0 := by
  obtain ⟨_, _, c3, c4, c5, c6⟩ := claim_C2 sBase hOwn0 0 rfl rfl (by decide)
  exact ⟨rfl, rfl, by decide, c3, c4, c5, c6⟩

/-- C9, counterexample: `py::object` declares no move operations, so a move
expression resolves to the copy constructor (`object.moveCtor`); moving from
the owning handle `hOwn0` (referent at count 1) increments the count to 2
instead of transferring it, and the source handle is left owning, so
destroying it still releases — contradicting a count-neutral transfer that
leaves the source non-owning. -/
theorem claim_C9_counterexample :
    (object.moveCtor sBase hOwn0).1.refcnt 0 = sBase.refcnt 0 + 1 ∧
    (object.moveCtor sBase hOwn0).2._own = some 0 ∧
    hOwn0._own = some 0 ∧
    (object.destruct (object.moveCtor sBase hOwn0).1 hOwn0).refcnt 0 = sBase.refcnt 0 := by
  refine ⟨by decide, by decide, by decide, by decide⟩

/-- C9, amended: the class declares no move constructor or move assignment,
so a move expression invokes the copy constructor, which acquires a new
counted reference (increment) and leaves the source handle owning;
a count-neutral ownership transfer out of a handle exists only through
`disown()`, which nulls the ownership marker and returns the raw reference
without touching any reference count (the stealing direction into a handle
is the `object(lose_ref(p))` idiom, an incref immediately compensated by
`lose_ref`'s raw decrement). -/
theorem claim_C9_amended (s : Runtime) (h : object) (r : Nat) :
    object.moveCtor s h = object.copyCtor s h ∧
    (h._obj = some r →
      (object.moveCtor s h).1.refcnt r = s.refcnt r + 1 ∧
      (object.moveCtor s h).2 = ⟨some r, some r⟩) ∧
    (object.disown h).1._own = none ∧
    (object.disown h).1._obj = h._obj ∧
    (object.disown h).2 = h._obj ∧
    (h._obj = some r →
      ∀ j, (lose_ref (object.fromRaw s h._obj).1 (object.fromRaw s h._obj).2.rawPtr).1.refcnt j
        = s.refcnt j) := by
  refine ⟨rfl, fun hobj => ⟨?_, ?_⟩, rfl, rfl, rfl, fun hobj j => ?_⟩
  · simp [object.moveCtor, object.copyCtor, object.grab_ref, object.grab_ref_mid,
      object.fromNullptr, hobj, xincref, xdecref]
  · simp [object.moveCtor, object.copyCtor, object.grab_ref, object.grab_ref_mid,
      object.fromNullptr, hobj]
  · by_cases hj : j = r
    · subst hj
      simp [object.fromRaw, object.grab_ref, object.grab_ref_mid, object.fromNullptr,
        object.rawPtr, hobj, xincref, xdecref, lose_ref]
    · simp [object.fromRaw, object.grab_ref, object.grab_ref_mid, object.fromNullptr,
        object.rawPtr, hobj, xincref, xdecref, lose_ref, hj]

/-- C9, witness for the amended theorem on the concrete runtime `sBase` and
the owning handle `hOwn0`. -/
theorem claim_C9_witness :
    hOwn0._obj = some 0 ∧
    (object.moveCtor sBase hOwn0).1.refcnt 0 = sBase.refcnt 0 + 1 ∧
    (object.moveCtor sBase hOwn0).2 = ⟨some 0, some 0⟩ ∧
    (object.disown hOwn0).1._own = none ∧
    (object.disown hOwn0).2 = hOwn0._obj ∧
    (lose_ref (object.fromRaw sBase hOwn0._obj).1 (object.fromRaw sBase hOwn0._obj).2.rawPtr).1.refcnt 0
      = sBase.refcnt 0 := by
  obtain ⟨_, m2, d1, _, d3, st⟩ := claim_C9_amended sBase hOwn0 0
  exact ⟨rfl, (m2 rfl).1, (m2 rfl).2, d1, d3, st rfl 0⟩

/-- C10, counterexample: copy-assigning the null-referent handle into the
OWNING handle `hOwn0` is not reference-count neutral — `grab_ref(0)` runs
`Py_XINCREF(0)` (a no-op) and then `Py_XDECREF(_own)`, releasing the
target's old referent: its count drops from 1 to 0, contradicting the
claim's unconditional "no reference-count change" for copy-assignment
involving a null-referent handle. -/
theorem claim_C10_counterexample :
    object.fromNullptr._obj = none ∧
    object.fromNullptr._own = none ∧
    hOwn0._own = some 0 ∧
    sBase.refcnt 0 = 1 ∧
    (object.assign sBase hOwn0 object.fromNullptr).1.refcnt 0 = 0 := by
  refine ⟨rfl, rfl, rfl, by decide, by decide⟩

/-- C10, amended: for a handle wrapping no value (`_obj` and `_own` NULL),
copy-construction from it and destruction of it are total no-ops on the
runtime state; copy-assigning it into any handle always yields the state
`Py_XDECREF(target._own)` and a null handle — a no-op when the target is
non-owning, and exactly one release of the target's old referent (no other
count changes) when the target is owning; `is_null` answers `true` for the
null-referent handle and `false` for any handle wrapping a dynamic value,
including the runtime's none value. -/
theorem claim_C10_amended (s : Runtime) (h h2 g : object) (r i : Nat) :
    (h._obj = none → h._own = none →
      object.copyCtor s h = (s, object.fromNullptr) ∧
      object.destruct s h = s ∧
      object.assign s h2 h = (xdecref s h2._own, object.fromNullptr) ∧
      (h2._own = none → object.assign s h2 h = (s, object.fromNullptr)) ∧
      (h2._own = some r →
        (object.assign s h2 h).1.refcnt r = s.refcnt r - 1 ∧
        (∀ j, j ≠ r → (object.assign s h2 h).1.refcnt j = s.refcnt j) ∧
        (object.assign s h2 h).2 = object.fromNullptr) ∧
      object.is_null h = true) ∧
    (g._obj = some i → object.is_null g = false) := by
  refine ⟨fun hobj hown =>
    ⟨?_, ?_, ?_, fun h2own => ?_, fun h2own => ⟨?_, fun j hj => ?_, ?_⟩, ?_⟩,
    fun gobj => ?_⟩
  · simp [object.copyCtor, object.grab_ref, object.grab_ref_mid, object.fromNullptr,
      hobj, xincref, xdecref]
  · simp [object.destruct, hown, xdecref]
  · simp [object.assign, object.grab_ref, object.grab_ref_mid, object.fromNullptr, hobj,
      xincref]
  · simp [object.assign, object.grab_ref, object.grab_ref_mid, object.fromNullptr,
      hobj, h2own, xincref, xdecref]
  · simp [object.assign, object.grab_ref, object.grab_ref_mid, object.fromNullptr,
      hobj, h2own, xincref, xdecref]
  · simp [object.assign, object.grab_ref, object.grab_ref_mid, object.fromNullptr,
      hobj, h2own, xincref, xdecref, hj]
  · simp [object.assign, object.grab_ref, object.grab_ref_mid, object.fromNullptr, hobj]
  · simp [object.is_null, hobj]
  · simp [object.is_null, gobj]

/-- C10, witness for the amended theorem: the null handle in `sBase`
copy-constructs and destroys with the state untouched, assigns into the
borrowing handle `hBorrow0` without any change, assigns into the owning
handle `hOwn0` releasing exactly its old referent (object 0 drops by one,
object 1 untouched), and `is_null` distinguishes it from the handle
`hNone6` wrapping the runtime's none value. -/
theorem claim_C10_witness :
    object.copyCtor sBase object.fromNullptr = (sBase, object.fromNullptr) ∧
    object.destruct sBase object.fromNullptr = sBase ∧
    object.assign sBase hBorrow0 object.fromNullptr = (sBase, object.fromNullptr) ∧
    (object.assign sBase hOwn0 object.fromNullptr).1.refcnt 0 = sBase.refcnt 0 - 1 ∧
    (object.assign sBase hOwn0 object.fromNullptr).1.refcnt 1 = sBase.refcnt 1 ∧
    (object.assign sBase hOwn0 object.fromNullptr).2 = object.fromNullptr ∧
    object.is_null object.fromNullptr = true ∧
    testVals 6 = .noneVal ∧
    object.is_null hNone6 = false := by
  obtain ⟨nb, _⟩ := claim_C10_amended sBase object.fromNullptr hBorrow0 hNone6 0 6
  obtain ⟨no, n2⟩ := claim_C10_amended sBase object.fromNullptr hOwn0 hNone6 0 6
  obtain ⟨c1, c2, _, c4, _, c6⟩ := nb rfl rfl
  obtain ⟨_, _, _, _, c5, _⟩ := no rfl rfl
  obtain ⟨o1, o2, o3⟩ := c5 rfl
  exact ⟨c1, c2, c4 rfl, o1, o2 1 (by decide), o3, c6, by decide, n2 rfl⟩

theorem richCompareBool_fail_err (s : Runtime) (a b : Option Nat) (op : CmpOp)
    (hfail : (PyObject_RichCompareBool s a b op).2 = -1) :
    (PyObject_RichCompareBool s a b op).1.err.isSome = true := by
  rcases a with _ | i
  · simp [PyObject_RichCompareBool, setErr]
  rcases b with _ | j
  · simp [PyObject_RichCompareBool, setErr]
  by_cases hid : i = j ∧ (op = .eq ∨ op = .ne)
  · obtain ⟨hij, hop⟩ := hid
    subst hij
    rcases hop with hop | hop <;> subst hop <;>
      simp [PyObject_RichCompareBool] at hfail
  · by_cases hr : richCmpVal (s.vals i) (s.vals j) op = -1
    · simp [PyObject_RichCompareBool, hid, hr, setErr]
    · simp [PyObject_RichCompareBool, hid, hr] at hfail

theorem richCompareBool_int_lt (s : Runtime) (i j : Nat) (m n : Int)
    (hm : s.vals i = .intVal m) (hn : s.vals j = .intVal n) :
    PyObject_RichCompareBool s (some i) (some j) .lt
      = (s, if m < n then 1 else 0) := by
  have hne : (if m < n then (1 : Int) else 0) ≠ -1 := by split <;> omega
  simp [PyObject_RichCompareBool, richCmpVal, hm, hn, ordAnswer, hne]

theorem richCompareBool_int_gt (s : Runtime) (i j : Nat) (m n : Int)
    (hm : s.vals i = .intVal m) (hn : s.vals j = .intVal n) :
    PyObject_RichCompareBool s (some i) (some j) .gt
      = (s, if n < m then 1 else 0) := by
  have hval : richCmpVal (s.vals i) (s.vals j) .gt = if n < m then 1 else 0 := by
    rw [hm, hn]
    show ordAnswer .gt (decide (m < n)) (decide (m = n)) = _
    rcases lt_trichotomy m n with hc | hc | hc
    · simp [ordAnswer, hc, hc.asymm]
    · subst hc
      simp [ordAnswer, lt_irrefl]
    · simp [ordAnswer, hc, hc.asymm, hc.ne']
  have hne : (if n < m then (1 : Int) else 0) ≠ -1 := by split <;> omega
  simp [PyObject_RichCompareBool, hval, hne]

/-- C5, counterexample: comparing the integer handle `hOwn0` with the text
handle `hStr1` under `<` makes the rich-comparison primitive fail, and
`operator<` returns normally with the native value `true` (the C conversion
of the error result `-1` to `bool`) while the failure stays pending in the
runtime error state — no host-level exception is raised, contradicting the
claim. -/
theorem claim_C5_counterexample :
    sBase.err = none ∧
    (object.opLt sBase hOwn0 hStr1).2 = true ∧
    (object.opLt sBase hOwn0 hStr1).1.err
      = some (.typeError, "comparison not supported between instances") := by
  refine ⟨by decide, by decide, by decide⟩

/-- C5, amended: each comparison operator returns the raw outcome of the
rich-comparison primitive converted from C `int` to `bool` (nonzero,
including the error outcome `-1`, becomes `true`) together with whatever
state the primitive left; no error check is performed and no exception is
raised, so a failing comparison is reported as `true` with the failure left
pending in the runtime error state. -/
theorem claim_C5_amended (s : Runtime) (h other : object) :
    (object.opEq s h other =
      ((PyObject_RichCompareBool s h._obj other._obj .eq).1,
        decide ((PyObject_RichCompareBool s h._obj other._obj .eq).2 ≠ 0))) ∧
    (object.opNe s h other =
      ((PyObject_RichCompareBool s h._obj other._obj .ne).1,
        decide ((PyObject_RichCompareBool s h._obj other._obj .ne).2 ≠ 0))) ∧
    (object.opLt s h other =
      ((PyObject_RichCompareBool s h._obj other._obj .lt).1,
        decide ((PyObject_RichCompareBool s h._obj other._obj .lt).2 ≠ 0))) ∧
    (object.opGt s h other =
      ((PyObject_RichCompareBool s h._obj other._obj .gt).1,
        decide ((PyObject_RichCompareBool s h._obj other._obj .gt).2 ≠ 0))) ∧
    (object.opLe s h other =
      ((PyObject_RichCompareBool s h._obj other._obj .le).1,
        decide ((PyObject_RichCompareBool s h._obj other._obj .le).2 ≠ 0))) ∧
    (object.opGe s h other =
      ((PyObject_RichCompareBool s h._obj other._obj .ge).1,
        decide ((PyObject_RichCompareBool s h._obj other._obj .ge).2 ≠ 0))) ∧
    ((PyObject_RichCompareBool s h._obj other._obj .lt).2 = -1 →
      (object.opLt s h other).2 = true ∧
      (object.opLt s h other).1.err.isSome = true) ∧
    ((PyObject_RichCompareBool s h._obj other._obj .eq).2 = -1 →
      (object.opEq s h other).2 = true ∧
      (object.opEq s h other).1.err.isSome = true) := by
  refine ⟨rfl, rfl, rfl, rfl, rfl, rfl, fun hf => ⟨?_, ?_⟩, fun hf => ⟨?_, ?_⟩⟩
  · simp [object.opLt, hf]
  · exact richCompareBool_fail_err s h._obj other._obj .lt hf
  · simp [object.opEq, hf]
  · exact richCompareBool_fail_err s h._obj other._obj .eq hf

/-- C5, witness for the amended theorem at the failing concrete comparison
of `hOwn0` (an integer) with `hStr1` (a text value) under `<`. -/
theorem claim_C5_witness :
    (PyObject_RichCompareBool sBase hOwn0._obj hStr1._obj .lt).2 = -1 ∧
    (object.opLt sBase hOwn0 hStr1).2 = true ∧
    (object.opLt sBase hOwn0 hStr1).1.err.isSome = true := by
  obtain ⟨_, _, _, _, _, _, flt, _⟩ := claim_C5_amended sBase hOwn0 hStr1
  exact ⟨by decide, (flt (by decide)).1, (flt (by decide)).2⟩

/-- C7: `cmp` returns exactly the `Py_GT` rich-comparison outcome minus the
`Py_LT` outcome computed in sequence on the comparand handle; on a pair of
integer values this yields the usual tri-state `-1`/`0`/`1`, while on a
value with an inconsistent custom ordering (here: `>` answers true, `<`
raises) the un-normalized arithmetic yields `2`. -/
theorem claim_C7 (s : Runtime) (h other : object) :
    (object.cmp s h other).2 =
      (PyObject_RichCompareBool (object.copyCtor s other).1 h._obj other._obj .gt).2 -
      (PyObject_RichCompareBool
        (PyObject_RichCompareBool (object.copyCtor s other).1 h._obj other._obj .gt).1
        h._obj other._obj .lt).2 ∧
    (∀ i j m n, h._obj = some i → other._obj = some j →
      s.vals i = .intVal m → s.vals j = .intVal n →
      (object.cmp s h other).2 = if m < n then -1 else if n < m then 1 else 0) ∧
    (object.cmp sBase hCustom5 hOwn0).2 = 2 := by
  refine ⟨rfl, fun i j m n hi hj hm hn => ?_, by decide⟩
  have hvals : (object.copyCtor s other).1.vals = s.vals := by
    simp [object.copyCtor, object.grab_ref, object.grab_ref_mid, object.fromNullptr,
      xincref_vals, xdecref_vals]
  have hm1 : (object.copyCtor s other).1.vals i = .intVal m := by rw [hvals]; exact hm
  have hn1 : (object.copyCtor s other).1.vals j = .intVal n := by rw [hvals]; exact hn
  have ho : (object.copyCtor s other).2._obj = some j := by
    simp [object.copyCtor, object.grab_ref, object.grab_ref_mid, hj]
  have hg := richCompareBool_int_gt (object.copyCtor s other).1 i j m n hm1 hn1
  have hl := richCompareBool_int_lt (object.copyCtor s other).1 i j m n hm1 hn1
  simp only [object.cmp, hi, ho, hg, hl]
  split_ifs <;> omega

/-- C7, witness for the integer tri-state case at `hOwn0` (value 5) versus
`hKey2` (value 0). -/
theorem claim_C7_witness :
    sBase.vals 0 = .intVal 5 ∧ sBase.vals 2 = .intVal 0 ∧
    (object.cmp sBase hOwn0 hKey2).2 = 1 := by
  obtain ⟨_, tri, _⟩ := claim_C7 sBase hOwn0 hKey2
  exact ⟨by decide, by decide, tri 0 2 5 0 rfl rfl (by decide) (by decide)⟩

/-- C8: constructing a handle from a native `int` in range, a native
`double` bit pattern, or a native string, and casting back to the same
native type, returns the original value exactly. -/
theorem claim_C8 (s : Runtime) (n : Int) (bits : Nat) (t : String)
    (herr : s.err = none) (hn : int32Range n) (hb : bits < 2 ^ 64) :
    (object.castInt (object.fromInt s n).1 (object.fromInt s n).2).2 = .ok n ∧
    (object.castDouble (object.fromDouble s bits).1 (object.fromDouble s bits).2).2 = .ok bits ∧
    (object.castStdString (object.fromString s t).1 (object.fromString s t).2).2 = .ok t := by
  have ht : toInt32 n = n := toInt32_eq_self n hn
  have hl : longRange n := by
    rcases hn with ⟨a, b⟩
    exact ⟨by omega, by omega⟩
  refine ⟨?_, ?_, ?_⟩
  · simp [object.fromInt, alloc, object.castInt, PyLong_AsLong, ht, hl,
      PyErr_Occurred, herr]
  · have hbmod : bits % 2 ^ 64 = bits := Nat.mod_eq_of_lt hb
    simp [object.fromDouble, alloc, object.castDouble, PyFloat_AsDouble, hbmod,
      PyErr_Occurred, herr]
    omega
  · simp [object.fromString, alloc, object.castStdString, PyUnicode_Check,
      PyUnicode_AsUTF8]

/-- C8, witness: the round trips at the native integer 5, the double
pattern 7, and the string "abc", starting from the concrete runtime. -/
theorem claim_C8_witness :
    sBase.err = none ∧ int32Range 5 ∧ (7 : Nat) < 2 ^ 64 ∧
    (object.castInt (object.fromInt sBase 5).1 (object.fromInt sBase 5).2).2 = .ok 5 ∧
    (object.castDouble (object.fromDouble sBase 7).1 (object.fromDouble sBase 7).2).2 = .ok 7 ∧
    (object.castStdString (object.fromString sBase "abc").1
        (object.fromString sBase "abc").2).2 = .ok "abc" := by
  obtain ⟨r1, r2, r3⟩ := claim_C8 sBase 5 7 "abc" rfl (by decide) (by decide)
  exact ⟨rfl, by decide, by decide, r1, r2, r3⟩

/-- C6: when the wrapped dynamic value does not support the requested
numeric coercion, each scalar cast (`int`, `float`, `double`, `complex`)
ends with the runtime's pending error replaced by the cast's own typed
`TypeError` (the primitive's error was cleared first) and fails by
unwinding; the text casts (`std::string`, `const char*`) fail fast with a
`TypeError` whenever the value is not already of text kind, and when they
do succeed the returned string is exactly the text value's own contents —
no implicit stringification. -/
theorem claim_C6 (s : Runtime) (h : object) (i : Nat)
    (hobj : h._obj = some i) :
    (intCoercible (s.vals i) = false →
      (object.castInt s h).2 = .error () ∧
      (object.castInt s h).1.err = some (.typeError, "cannot convert value to integer")) ∧
    (floatCoercible (s.vals i) = false →
      (object.castFloat s h).2 = .error () ∧
      (object.castFloat s h).1.err = some (.typeError, "cannot convert value to float")) ∧
    (floatCoercible (s.vals i) = false →
      (object.castDouble s h).2 = .error () ∧
      (object.castDouble s h).1.err = some (.typeError, "cannot convert value to double")) ∧
    (complexCoercible (s.vals i) = false →
      (object.castComplex s h).2 = .error () ∧
      (object.castComplex s h).1.err = some (.typeError, "cannot convert value to complex")) ∧
    (textKind (s.vals i) = false →
      (object.castStdString s h).2 = .error () ∧
      (object.castStdString s h).1.err = some (.typeError, "cannot convert value to std::string")) ∧
    (textKind (s.vals i) = false →
      (object.castCharPtr s h).2 = .error () ∧
      (object.castCharPtr s h).1.err = some (.typeError, "cannot convert value to const char*")) ∧
    (∀ t, (object.castStdString s h).2 = .ok t → s.vals i = .strVal t) ∧
    (∀ t, (object.castCharPtr s h).2 = .ok t → s.vals i = .strVal t) := by
  refine ⟨fun hc => ?_, fun hc => ?_, fun hc => ?_, fun hc => ?_, fun hc => ?_, fun hc => ?_,
    fun t ht => ?_, fun t ht => ?_⟩
  · rcases hv : s.vals i with n | b | ⟨re, im⟩ | t0 | _ | es | en | ⟨e1, e2, e3, e4, e5, e6⟩
    case intVal =>
      simp [intCoercible, hv, longRange] at hc
      have hnl : ¬ longRange n := by unfold longRange; omega
      simp [object.castInt, PyLong_AsLong, hobj, hv, hnl, PyErr_Occurred, PyErr_Clear,
        fail, setErr]
    all_goals simp [object.castInt, PyLong_AsLong, hobj, hv, PyErr_Occurred, PyErr_Clear,
      fail, setErr]
  · rcases hv : s.vals i with n | b | ⟨re, im⟩ | t0 | _ | es | en | ⟨e1, e2, e3, e4, e5, e6⟩ <;>
      simp [floatCoercible, hv] at hc <;>
      simp [object.castFloat, PyFloat_AsDouble, hobj, hv, PyErr_Occurred, PyErr_Clear,
        fail, setErr]
  · rcases hv : s.vals i with n | b | ⟨re, im⟩ | t0 | _ | es | en | ⟨e1, e2, e3, e4, e5, e6⟩ <;>
      simp [floatCoercible, hv] at hc <;>
      simp [object.castDouble, PyFloat_AsDouble, hobj, hv, PyErr_Occurred, PyErr_Clear,
        fail, setErr]
  · rcases hv : s.vals i with n | b | ⟨re, im⟩ | t0 | _ | es | en | ⟨e1, e2, e3, e4, e5, e6⟩ <;>
      simp [complexCoercible, hv] at hc <;>
      simp [object.castComplex, PyComplex_RealAsDouble, PyComplex_ImagAsDouble, hobj, hv,
        PyErr_Occurred, PyErr_Clear, fail, setErr]
  · rcases hv : s.vals i with n | b | ⟨re, im⟩ | t0 | _ | es | en | ⟨e1, e2, e3, e4, e5, e6⟩ <;>
      simp [textKind, hv] at hc <;>
      simp [object.castStdString, PyUnicode_Check, hobj, hv, fail, setErr]
  · rcases hv : s.vals i with n | b | ⟨re, im⟩ | t0 | _ | es | en | ⟨e1, e2, e3, e4, e5, e6⟩ <;>
      simp [textKind, hv] at hc <;>
      simp [object.castCharPtr, PyUnicode_Check, hobj, hv, fail, setErr]
  · rcases hv : s.vals i with n | b | ⟨re, im⟩ | t0 | _ | es | en | ⟨e1, e2, e3, e4, e5, e6⟩ <;>
      simp [object.castStdString, PyUnicode_Check, PyUnicode_AsUTF8, hobj, hv,
        fail, setErr] at ht <;> simp [hv, ht]
  · rcases hv : s.vals i with n | b | ⟨re, im⟩ | t0 | _ | es | en | ⟨e1, e2, e3, e4, e5, e6⟩ <;>
      simp [object.castCharPtr, PyUnicode_Check, PyUnicode_AsUTF8, hobj, hv,
        fail, setErr] at ht <;> simp [hv, ht]

/-- C6, witness: on the concrete runtime, every numeric cast of the text
handle `hStr1` fails with its typed conversion error, the text casts of the
integer handle `hOwn0` fail fast, and the successful text cast of `hStr1`
returns exactly the stored text. -/
theorem claim_C6_witness :
    sBase.err = none ∧
    (object.castInt sBase hStr1).2 = .error () ∧
    (object.castInt sBase hStr1).1.err = some (.typeError, "cannot convert value to integer") ∧
    (object.castFloat sBase hStr1).2 = .error () ∧
    (object.castDouble sBase hStr1).2 = .error () ∧
    (object.castComplex sBase hStr1).2 = .error () ∧
    (object.castStdString sBase hOwn0).2 = .error () ∧
    (object.castStdString sBase hOwn0).1.err
      = some (.typeError, "cannot convert value to std::string") ∧
    (object.castCharPtr sBase hOwn0).2 = .error () ∧
    (object.castStdString sBase hStr1).2 = .ok "a" ∧
    sBase.vals 1 = .strVal "a" := by
  obtain ⟨i1, f1, d1, x1, _, _, sOk, _⟩ := claim_C6 sBase hStr1 1 rfl
  obtain ⟨_, _, _, _, s1, c1, _, _⟩ := claim_C6 sBase hOwn0 0 rfl
  refine ⟨rfl, (i1 (by decide)).1, (i1 (by decide)).2, (f1 (by decide)).1,
    (d1 (by decide)).1, (x1 (by decide)).1, (s1 (by decide)).1, (s1 (by decide)).2,
    (c1 (by decide)).1, by rfl, sOk "a" (by rfl)⟩

/-- C3, counterexample: fetching `hOwn0[hKey2]` — the container wraps an
integer, so the fetch fails with a `TypeError` (not a key-not-found and not
an index-out-of-range) — returns normally with a null-referent proxy and the
failure left pending, instead of propagating as the claim states for every
non-key-absence failure. -/
theorem claim_C3_counterexample :
    sBase.err = none ∧
    fetchOk (object.getitem sBase hOwn0 hKey2).2 = true ∧
    fetchedReferent (object.getitem sBase hOwn0 hKey2).2 = some none ∧
    (object.getitem sBase hOwn0 hKey2).1.err
      = some (.typeError, "object is not subscriptable") := by
  refine ⟨by decide, by decide, by decide, by decide⟩

/-- C3, amended: `operator[]` swallows a key-not-found fetch failure (the
error is cleared and a null-referent proxy is returned), propagates an
index-out-of-range failure by throwing, and on a fetch failure of any other
kind (for example a `TypeError` from a non-subscriptable value) returns
normally with a null-referent proxy while the failure stays pending in the
runtime error state — only `IndexError` propagates, not every
non-key-absence failure. -/
theorem claim_C3_amended (s : Runtime) (h key : object) (c ki : Nat)
    (hc : h._obj = some c) (hk : key._obj = some ki) :
    (∀ entries dk, s.vals c = .dictVal entries → toKey (s.vals ki) = some dk →
      lookupAssoc entries dk = none →
      fetchOk (object.getitem s h key).2 = true ∧
      fetchedReferent (object.getitem s h key).2 = some none ∧
      (object.getitem s h key).1.err = none) ∧
    (∀ elems n, s.vals c = .listVal elems → s.vals ki = .intVal n →
      ¬ (0 ≤ seqIndex elems.length n ∧ (seqIndex elems.length n).toNat < elems.length) →
      (object.getitem s h key).2 = .error () ∧
      (object.getitem s h key).1.err = some (.indexError, "list index out of range")) ∧
    (∀ n, s.vals c = .intVal n →
      fetchOk (object.getitem s h key).2 = true ∧
      fetchedReferent (object.getitem s h key).2 = some none ∧
      (object.getitem s h key).1.err = some (.typeError, "object is not subscriptable")) := by
  have hck : object.copyCtor s key = (xincref s (some ki), ⟨some ki, some ki⟩) := by
    simp [object.copyCtor, object.grab_ref, object.grab_ref_mid, object.fromNullptr,
      hk, xdecref]
  refine ⟨fun entries dk hdict htk hlookup => ?_, fun elems n hlist hkey hrange => ?_,
    fun n hint => ?_⟩
  · have hgi : PyObject_GetItem (xincref s (some ki)) h._obj (some ki)
        = (setErr (xincref s (some ki)) .keyError "key not found", none) := by
      simp [PyObject_GetItem, hc, xincref_vals, hdict, htk, hlookup]
    simp only [object.getitem, hck, hgi]
    simp [object.fromRaw, object.grab_ref, object.grab_ref_mid, object.fromNullptr,
      lose_ref, object.rawPtr, PyErr_ExceptionMatches, setErr, PyErr_Clear,
      keyedReturn, mkKeyedRef, object.copyCtor, object.destruct, xincref, xdecref,
      fetchOk, fetchedReferent]
  · have hgi : PyObject_GetItem (xincref s (some ki)) h._obj (some ki)
        = (setErr (xincref s (some ki)) .indexError "list index out of range", none) := by
      simp [PyObject_GetItem, hc, xincref_vals, hlist, hkey, hrange]
    simp only [object.getitem, hck, hgi]
    simp [object.fromRaw, object.grab_ref, object.grab_ref_mid, object.fromNullptr,
      lose_ref, object.rawPtr, PyErr_ExceptionMatches, setErr, PyErr_Clear,
      object.destruct, xincref, xdecref]
  · have hgi : PyObject_GetItem (xincref s (some ki)) h._obj (some ki)
        = (setErr (xincref s (some ki)) .typeError "object is not subscriptable", none) := by
      simp [PyObject_GetItem, hc, xincref_vals, hint]
    simp only [object.getitem, hck, hgi]
    simp [object.fromRaw, object.grab_ref, object.grab_ref_mid, object.fromNullptr,
      lose_ref, object.rawPtr, PyErr_ExceptionMatches, setErr, PyErr_Clear,
      keyedReturn, mkKeyedRef, object.copyCtor, object.destruct, xincref, xdecref,
      fetchOk, fetchedReferent]

/-- C3, witness for the amended theorem: the absent dictionary key is
swallowed with the error cleared, the out-of-range list index throws, and
the non-subscriptable fetch returns normally with the error pending. -/
theorem claim_C3_witness :
    (fetchOk (object.getitem sBase hDict3 hKey2).2 = true ∧
      fetchedReferent (object.getitem sBase hDict3 hKey2).2 = some none ∧
      (object.getitem sBase hDict3 hKey2).1.err = none) ∧
    ((object.getitem sBase hList4 hOwn0).2 = .error () ∧
      (object.getitem sBase hList4 hOwn0).1.err
        = some (.indexError, "list index out of range")) ∧
    (fetchOk (object.getitem sBase hOwn0 hKey2).2 = true ∧
      (object.getitem sBase hOwn0 hKey2).1.err
        = some (.typeError, "object is not subscriptable")) := by
  obtain ⟨e1, _, _⟩ := claim_C3_amended sBase hDict3 hKey2 3 2 rfl rfl
  obtain ⟨_, e2, _⟩ := claim_C3_amended sBase hList4 hOwn0 4 0 rfl rfl
  obtain ⟨_, _, e3⟩ := claim_C3_amended sBase hOwn0 hKey2 0 2 rfl rfl
  obtain ⟨a1, a2, a3⟩ := e1 [(.intKey 1, 2)] (.intKey 0) (by decide) (by decide) (by decide)
  obtain ⟨b1, b2⟩ := e2 [2] 5 (by decide) (by decide) (by decide)
  obtain ⟨c1, _, c3⟩ := e3 5 (by decide)
  exact ⟨⟨a1, a2, a3⟩, ⟨b1, b2⟩, ⟨c1, c3⟩⟩

theorem setItem_fail_refcnt (s : Runtime) (c k v : Option Nat)
    (hfail : (PyObject_SetItem s c k v).2 = -1) :
    (PyObject_SetItem s c k v).1.refcnt = s.refcnt := by
  rcases c with _ | ci
  · rfl
  rcases k with _ | ki
  · rfl
  rcases v with _ | vi
  · rfl
  rcases hv : s.vals ci with n | b | ⟨re, im⟩ | t0 | _ | es | en | ⟨e1, e2, e3, e4, e5, e6⟩
  case listVal =>
    rcases hk : s.vals ki with m | b2 | ⟨re2, im2⟩ | t2 | _ | es2 | en2 | ⟨f1, f2, f3, f4, f5, f6⟩ <;>
      simp only [PyObject_SetItem, hv, hk] at hfail ⊢ <;> try rfl
    by_cases hr : 0 ≤ seqIndex es.length m ∧ (seqIndex es.length m).toNat < es.length
    · simp [hr] at hfail
    · simp [hr, setErr]
  case dictVal =>
    rcases ht : toKey (s.vals ki) with _ | dk <;>
      simp only [PyObject_SetItem, hv, ht] at hfail ⊢
    · rfl
    rcases hl : lookupAssoc en dk with _ | old <;> simp [hl] at hfail
  all_goals simp [PyObject_SetItem, hv, setErr]

/-- C4: assignment through a `keyed_ref` first updates the proxy's own
referent by ordinary retain-assignment (the returned proxy wraps and owns
the assigned referent unconditionally), and only then writes back through
the parent's `set_item` with the stored key (the final runtime state is the
`set_item` state applied after the `grab_ref` state); the assignment throws
exactly when the write-back primitive reports failure, and in that case the
already-performed local retain persists — for a proxy with a previously
null referent the assigned value's count ends one above its initial value
even though the operation failed. -/
theorem claim_C4 (s : Runtime) (kr : object.keyed_ref) (other : object) :
    ((object.keyed_ref.assign s kr other).2.1.base = ⟨other._obj, other._obj⟩) ∧
    ((object.keyed_ref.assign s kr other).1 =
      (object.set_item (object.grab_ref s kr.base other._obj).1 kr._parent kr._key other).1) ∧
    ((object.keyed_ref.assign s kr other).2.2 = .error () ↔
      (PyObject_SetItem (object.grab_ref s kr.base other._obj).1
          kr._parent._obj kr._key._obj other._obj).2 = -1) ∧
    (∀ w, other._obj = some w → kr.base._own = none →
      (object.keyed_ref.assign s kr other).2.2 = .error () →
      (object.keyed_ref.assign s kr other).1.refcnt w = s.refcnt w + 1) := by
  refine ⟨rfl, rfl, ?_, fun w hw hown hfail => ?_⟩
  · by_cases hr : (PyObject_SetItem (object.grab_ref s kr.base other._obj).1
        kr._parent._obj kr._key._obj other._obj).2 = -1 <;>
      simp [object.keyed_ref.assign, object.set_item, hr]
  · have hfail2 : (PyObject_SetItem (object.grab_ref s kr.base other._obj).1
        kr._parent._obj kr._key._obj other._obj).2 = -1 := by
      by_contra hno
      simp [object.keyed_ref.assign, object.set_item, hno] at hfail
    have hrc := setItem_fail_refcnt (object.grab_ref s kr.base other._obj).1
      kr._parent._obj kr._key._obj other._obj hfail2
    have hstate : (object.keyed_ref.assign s kr other).1 =
        (PyObject_SetItem (object.grab_ref s kr.base other._obj).1
          kr._parent._obj kr._key._obj other._obj).1 := by
      simp [object.keyed_ref.assign, object.set_item]
      by_cases hr : (PyObject_SetItem (object.grab_ref s kr.base other._obj).1
          kr._parent._obj kr._key._obj other._obj).2 = -1 <;> simp [hr]
    rw [hstate, hrc]
    simp [object.grab_ref, object.grab_ref_mid, hw, hown, xincref, xdecref]

/-- C4, witness: assigning the text handle `hStr1` through a proxy whose
parent wraps a non-subscriptable integer — the write-back fails and
propagates, yet the proxy's referent was already updated and the assigned
value's count was already incremented. -/
theorem claim_C4_witness :
    (object.keyed_ref.assign sBase ⟨object.fromNullptr, hOwn0, hKey2⟩ hStr1).2.1.base
      = ⟨some 1, some 1⟩ ∧
    (object.keyed_ref.assign sBase ⟨object.fromNullptr, hOwn0, hKey2⟩ hStr1).2.2
      = .error () ∧
    (object.keyed_ref.assign sBase ⟨object.fromNullptr, hOwn0, hKey2⟩ hStr1).1.refcnt 1
      = sBase.refcnt 1 + 1 := by
  obtain ⟨u1, _, _, u4⟩ := claim_C4 sBase ⟨object.fromNullptr, hOwn0, hKey2⟩ hStr1
  refine ⟨u1, by rfl, u4 1 rfl rfl (by rfl)⟩

end Weave
